import Mathlib

/-!
Verification of the iptsd_android input-pipeline core against its
natural-language specification.

The development shallowly embeds the relevant source components:

* `Reader` (src/common/reader.hpp): a bounded cursor over a byte buffer,
  modelled as a state machine whose operations either succeed, throw one of
  the three `ReaderError`s, or hit a `gsl::span` contract violation
  (modelled as a `fatal` outcome, since that terminates the process).
* the local-maxima search (src/contacts/detection/algorithms/maximas.hpp):
  `check_point` and the two-pointer scan `find`, translated faithfully,
  including the converging traversal of the source.
* the contact `Stabilizer` (stabilizer.hpp): temporal stability check and
  the per-axis dead-band / break-band hysteresis, parametric over a linear
  ordered field like the C++ template over floating-point `T`.
* the Go stylus v1 decode path (stylus.go): mode bit extraction, pressure
  scaling and tilt suppression.

Machine integers are modelled as `Nat` with explicit `% 2^16` where the Go
code performs 16-bit arithmetic.
-/

namespace IptsdReader

/-- The three error codes of `iptsd::impl::ReaderError` (reader.hpp). -/
inductive ReaderError where
  | endOfData
  | invalidRead
  | invalidSeek
deriving DecidableEq, Repr

/-- The `iptsd::Reader` state: the byte span it walks and the cursor
`m_index`.  Both constructors of the C++ class start the cursor at 0. -/
structure Reader where
  data : List Nat
  index : Nat
deriving DecidableEq, Repr

/-- Source `Reader::size()`: `m_data.size() - m_index` (unsigned subtraction;
`Nat` truncation agrees with it on all states reachable from a
constructor, where `index ≤ data.length`). -/
def Reader.size (r : Reader) : Nat :=
  r.data.length - r.index

/-- Outcome of one Reader operation: normal return, a thrown
`ReaderError` (carrying the reader state left behind by the call), or a
`gsl` contract violation, which terminates the process. -/
inductive Outcome where
  | ok (r : Reader)
  | err (e : ReaderError) (r : Reader)
  | fatal
deriving DecidableEq, Repr

/-- Source `Reader::seek(index)`: throws `InvalidSeek` when the target is past
the end, otherwise sets the cursor. -/
def Reader.seek (r : Reader) (n : Nat) : Outcome :=
  if n > r.data.length then .err .invalidSeek r
  else .ok { r with index := n }

/-- Source `Reader::skip(size)`: throws `EndOfData` when nothing is left,
`InvalidRead` when fewer than `size` bytes are left, otherwise advances
the cursor. -/
def Reader.skip (r : Reader) (n : Nat) : Outcome :=
  if r.size = 0 then .err .endOfData r
  else if n > r.size then .err .invalidRead r
  else .ok { r with index := r.index + n }

/-- Source `Reader::subspan<T>(size)`: the same two checks as `skip` on the
element count, then `m_data.subspan(m_index, size * sizeof(T))` — whose
`gsl` precondition failure terminates the process — then `skip` on the
byte count.  `elemSize` stands for `sizeof(T)`. -/
def Reader.subspan (r : Reader) (elemSize n : Nat) : Outcome :=
  if r.size = 0 then .err .endOfData r
  else if n > r.size then .err .invalidRead r
  else
    let bytes := n * elemSize
    if r.index + bytes > r.data.length then .fatal
    else match r.skip bytes with
      | .ok r' => .ok r'
      | .err e r' => .err e r'
      | .fatal => .fatal

/-- Source `Reader::read(dest)` with `dest.size() = n`: the two bounds checks,
then `subspan<u8>(n)` advances the cursor; the `std::copy` into `dest`
does not touch the reader and is elided. -/
def Reader.readBytes (r : Reader) (n : Nat) : Outcome :=
  if r.size = 0 then .err .endOfData r
  else if n > r.size then .err .invalidRead r
  else r.subspan 1 n

/-- Source `Reader::sub(size)`: splits off `subspan<u8>(size)`; the parent
cursor moves exactly as in `subspan`, the child is a fresh reader. -/
def Reader.sub (r : Reader) (n : Nat) : Outcome :=
  r.subspan 1 n

/-- Source `Reader::read<T>()`: reads `sizeof(T)` bytes through `read(dest)`;
`tSize` stands for `sizeof(T)`. -/
def Reader.readObj (r : Reader) (tSize : Nat) : Outcome :=
  r.readBytes tSize

/-- One abstract operation on a Reader, covering the public mutating /
reading interface of the class. -/
inductive Op where
  | seek (n : Nat)
  | skip (n : Nat)
  | read (n : Nat)
  | subspan (elemSize n : Nat)
  | sub (n : Nat)
  | readObj (tSize : Nat)
deriving DecidableEq, Repr

/-- Dispatch one operation. -/
def applyOp (r : Reader) : Op → Outcome
  | .seek n => r.seek n
  | .skip n => r.skip n
  | .read n => r.readBytes n
  | .subspan s n => r.subspan s n
  | .sub n => r.sub n
  | .readObj k => r.readObj k

/-- Run a sequence of operations.  A thrown `ReaderError` is caught by
the outer decoder (reader.hpp failure policy), leaving the reader in the
state the call left it; a `gsl` contract violation kills the process
(`none`). -/
def run (r : Reader) : List Op → Option Reader
  | [] => some r
  | op :: ops =>
    match applyOp r op with
    | .ok r' => run r' ops
    | .err _ r' => run r' ops
    | .fatal => none

/-- What one operation guarantees about its outcome: a normal return
keeps the buffer and cannot push the cursor past the end; a thrown
`ReaderError` leaves the reader exactly as it was (the source performs
all checks before any mutation). -/
def StepInv (r : Reader) : Outcome → Prop
  | .ok r' => r'.data = r.data ∧ (r.index ≤ r.data.length → r'.index ≤ r'.data.length)
  | .err _ r' => r' = r
  | .fatal => True

theorem seek_stepInv (r : Reader) (n : Nat) : StepInv r (r.seek n) := by
  unfold Reader.seek
  split_ifs with h
  · exact rfl
  · exact ⟨rfl, fun _ => by simpa using Nat.le_of_not_lt h⟩

theorem skip_stepInv (r : Reader) (n : Nat) : StepInv r (r.skip n) := by
  unfold Reader.skip
  split_ifs with h1 h2
  · exact rfl
  · exact rfl
  · refine ⟨rfl, fun hle => ?_⟩
    simp only [Reader.size] at h2
    simpa using by omega

theorem subspan_stepInv (r : Reader) (s n : Nat) : StepInv r (r.subspan s n) := by
  unfold Reader.subspan
  split_ifs with h1 h2
  · exact rfl
  · exact rfl
  dsimp only
  split_ifs with h3
  · exact trivial
  · have hsk := skip_stepInv r (n * s)
    cases hres : r.skip (n * s) with
    | ok r' =>
      rw [hres] at hsk
      simpa [hres] using hsk
    | err e r' =>
      rw [hres] at hsk
      simpa [hres] using hsk
    | fatal => simp [hres, StepInv]

theorem readBytes_stepInv (r : Reader) (n : Nat) : StepInv r (r.readBytes n) := by
  unfold Reader.readBytes
  split_ifs with h1 h2
  · exact rfl
  · exact rfl
  · exact subspan_stepInv r 1 n

theorem applyOp_stepInv (r : Reader) (op : Op) : StepInv r (applyOp r op) := by
  cases op with
  | seek n => exact seek_stepInv r n
  | skip n => exact skip_stepInv r n
  | read n => exact readBytes_stepInv r n
  | subspan s n => exact subspan_stepInv r s n
  | sub n => exact subspan_stepInv r 1 n
  | readObj k => exact readBytes_stepInv r k

/-- The cursor bound is an invariant of arbitrary operation sequences. -/
theorem run_preserves (ops : List Op) (r : Reader)
    (hinv : r.index ≤ r.data.length) :
    ∀ r', run r ops = some r' → r'.data = r.data ∧ r'.index ≤ r'.data.length := by
  induction ops generalizing r with
  | nil => intro r' h; simp [run] at h; subst h; exact ⟨rfl, hinv⟩
  | cons op ops ih =>
    intro r' h
    unfold run at h
    revert h
    have hstep := applyOp_stepInv r op
    cases hres : applyOp r op with
    | ok r'' =>
      intro h
      rw [hres] at hstep
      obtain ⟨hdata, hidx⟩ := hstep
      have := ih r'' (hidx hinv) r' h
      exact ⟨hdata ▸ this.1, this.2⟩
    | err e r'' =>
      intro h
      rw [hres] at hstep
      subst hstep
      exact ih r'' hinv r' h
    | fatal => intro h; simp at h

/-- C8: for every Reader over a buffer B and every sequence of its
operations (seek, skip, read, subspan, sub, read of an object), whether
they succeed or throw, the cursor satisfies `0 ≤ index ≤ |B|` and
`size()` equals `|B| - index`.  (`0 ≤ index` is inherent to `Nat`; a
`gsl` contract violation terminates the process, leaving no state.) -/
theorem reader_cursor_bound (data : List Nat) (ops : List Op) (r' : Reader)
    (h : run (Reader.mk data 0) ops = some r') :
    r'.index ≤ data.length ∧ r'.size = data.length - r'.index := by
  have hp := run_preserves ops (Reader.mk data 0) (by simp) r' h
  have hdata : r'.data = data := hp.1
  refine ⟨hdata ▸ hp.2, ?_⟩
  simp [Reader.size, hdata]

/-- Witness for C8: a run with a skip, a failing seek and a read. -/
theorem reader_cursor_bound_witness :
    (Reader.mk [1, 2, 3] 3).index ≤ [1, 2, 3].length ∧
    (Reader.mk [1, 2, 3] 3).size = [1, 2, 3].length - (Reader.mk [1, 2, 3] 3).index :=
  reader_cursor_bound [1, 2, 3] [Op.skip 1, Op.seek 5, Op.read 2]
    (Reader.mk [1, 2, 3] 3) (by decide)

/-- C10: whenever a Reader operation throws `EndOfData`, `InvalidRead` or
`InvalidSeek`, the cursor is exactly what it was before the call — a
failed operation never partially advances the cursor. -/
theorem reader_error_atomicity (r : Reader) (op : Op) (e : ReaderError)
    (r' : Reader) (h : applyOp r op = .err e r') : r'.index = r.index := by
  have hs := applyOp_stepInv r op
  rw [h] at hs
  exact congrArg Reader.index hs

/-- Witness for C10: a read past the end throws `InvalidRead` and leaves
the cursor at 1. -/
theorem reader_error_atomicity_witness :
    applyOp (Reader.mk [5, 6, 7] 1) (Op.read 5) =
      .err .invalidRead (Reader.mk [5, 6, 7] 1) ∧
    (Reader.mk [5, 6, 7] 1).index = (Reader.mk [5, 6, 7] 1).index :=
  ⟨by decide, reader_error_atomicity _ (Op.read 5) .invalidRead _ (by decide)⟩

end IptsdReader

namespace IptsdMaximas

/-- A heatmap (`Eigen` dense matrix in the source), row-major:
`vals[y][x]`.  Heatmap scalars are floating point in the source and are
modelled as rationals. -/
structure Grid where
  vals : List (List ℚ)
deriving DecidableEq, Repr

/-- Source `data.rows()`. -/
def Grid.rowsCount (g : Grid) : Nat := g.vals.length

/-- Source `data.cols()`. -/
def Grid.colsCount (g : Grid) : Nat := (g.vals.headD []).length

/-- Source `data(y, x)`.  Out-of-range access is undefined behaviour in the
source and never occurs on the paths below; the model returns 0 there. -/
def Grid.get (g : Grid) (y x : Int) : ℚ :=
  (g.vals.getD y.toNat []).getD x.toNat 0

/-- Source `maximas::check_point` (maximas.hpp lines 12-53), translated
comparison by comparison in source order.  `cols` and `rows` are the
largest valid column / row index, as passed by `find`. -/
def check_point (g : Grid) (maximas : List (Int × Int))
    (y x cols rows : Int) : List (Int × Int) :=
  let value := g.get y x
  let can_up := 0 < y
  let can_down := y < rows
  let can_left := 0 < x
  let can_right := x < cols
  let m := true
  let m := if can_left then m && decide (g.get y (x - 1) < value) else m
  let m := if can_right then m && decide (g.get y (x + 1) ≤ value) else m
  let m :=
    if can_up then
      let m := m && decide (g.get (y - 1) x < value)
      let m := if can_left then m && decide (g.get (y - 1) (x - 1) < value) else m
      let m := if can_right then m && decide (g.get (y - 1) (x + 1) ≤ value) else m
      m
    else m
  let m :=
    if can_down then
      let m := m && decide (g.get (y + 1) x ≤ value)
      let m := if can_left then m && decide (g.get (y + 1) (x - 1) < value) else m
      let m := if can_right then m && decide (g.get (y + 1) (x + 1) ≤ value) else m
      m
    else m
  if m then maximas ++ [(x, y)] else maximas

/-- The `while` loop of `maximas::find` (maximas.hpp lines 91-120): two
index pairs converge from the borders; when the column pair crosses, the
row pair advances and the column pair resets. -/
def findAux (g : Grid) (threshold : ℚ) (cols rows : Int)
    (y_up y_down x_left x_right : Int) (maximas : List (Int × Int)) :
    List (Int × Int) :=
  if y_up < y_down then
    if x_left ≥ x_right then
      findAux g threshold cols rows (y_up + 1) (y_down - 1) 0 cols maximas
    else
      let m := if threshold < g.get y_up x_left then
          check_point g maximas y_up x_left cols rows else maximas
      let m := if threshold < g.get y_up x_right then
          check_point g m y_up x_right cols rows else m
      let m := if threshold < g.get y_down x_left then
          check_point g m y_down x_left cols rows else m
      let m := if threshold < g.get y_down x_right then
          check_point g m y_down x_right cols rows else m
      findAux g threshold cols rows y_up y_down (x_left + 1) (x_right - 1) m
  else maximas
termination_by ((y_down - y_up).toNat, (x_right - x_left).toNat)
decreasing_by
  · apply Prod.Lex.left
    omega
  · apply Prod.Lex.right
    omega

/-- Source `maximas::find` (maximas.hpp lines 62-121): sets `cols` and `rows`
to the largest valid indices, clears the output and runs the loop. -/
def find (g : Grid) (threshold : ℚ) : List (Int × Int) :=
  let cols : Int := (g.colsCount : Int) - 1
  let rows : Int := (g.rowsCount : Int) - 1
  findAux g threshold cols rows 0 rows 0 cols []

/-- Follows the spec's words (§4.3 Stage 1): a cell is a local maximum
when its value exceeds the threshold and is strictly greater than its
existing upper-left, upper, upper-right and left neighbors, and
greater-or-equal to its existing right, lower-left, lower and
lower-right neighbors.  Stated for comparison with `find`. -/
def SpecLocalMax (g : Grid) (threshold : ℚ) (y x : Int) : Prop :=
  let value := g.get y x
  let rows : Int := (g.rowsCount : Int) - 1
  let cols : Int := (g.colsCount : Int) - 1
  threshold < value ∧
  (0 < y → 0 < x → g.get (y - 1) (x - 1) < value) ∧
  (0 < y → g.get (y - 1) x < value) ∧
  (0 < y → x < cols → g.get (y - 1) (x + 1) < value) ∧
  (0 < x → g.get y (x - 1) < value) ∧
  (x < cols → g.get y (x + 1) ≤ value) ∧
  (y < rows → 0 < x → g.get (y + 1) (x - 1) ≤ value) ∧
  (y < rows → g.get (y + 1) x ≤ value) ∧
  (y < rows → x < cols → g.get (y + 1) (x + 1) ≤ value)

instance (g : Grid) (threshold : ℚ) (y x : Int) :
    Decidable (SpecLocalMax g threshold y x) := by
  unfold SpecLocalMax
  infer_instance

/-- A 3x3 heatmap whose center cell is the unique cell above the
threshold 1/2 — a strict local maximum in every sense. -/
def gridSpike : Grid :=
  ⟨[[0, 0, 0], [0, 1, 0], [0, 0, 0]]⟩

/-- A 3x3 heatmap with a two-cell plateau of value 3 in the middle row,
every outside neighbor strictly lower and below the threshold 1. -/
def gridPlateau : Grid :=
  ⟨[[0, 0, 0], [0, 3, 3], [0, 0, 0]]⟩

/-- A 2x2 heatmap with an anti-diagonal plateau of value 5, where the
source's comparison kernel and the spec's kernel pick different cells. -/
def gridKernel : Grid :=
  ⟨[[0, 5], [5, 0]]⟩

/-- A 4x4 heatmap with a diagonally connected plateau of value 7 at
(x,y) = (0,0), (1,1), (0,2); every neighbor outside the plateau is
strictly lower, and the whole grid is visited by `find`. -/
def gridDiag : Grid :=
  ⟨[[7, 0, 0, 0], [0, 7, 0, 0], [7, 0, 0, 0], [0, 0, 0, 0]]⟩

/-- C2: the maxima search does not report cells iff they satisfy the
spec's kernel.  On `gridSpike` the center (x,y) = (1,1) is a spec local
maximum above the threshold, yet `find` reports nothing — its converging
traversal never visits the middle row or middle column.  On `gridKernel`
(which `find` visits completely) `find` reports (0,1), which is not a
spec local maximum (its upper-right neighbor is equal, and the spec
requires strictly greater), while the spec local maximum (1,0) is not
reported (the code compares the lower-left neighbor strictly, the spec
allows equality). -/
theorem maximas_kernel_code_bug :
    find gridSpike 0 = [] ∧ SpecLocalMax gridSpike 0 1 1 ∧
    find gridKernel 1 = [(0, 1)] ∧ ¬ SpecLocalMax gridKernel 1 1 0 ∧
    SpecLocalMax gridKernel 1 0 1 := by
  refine ⟨?_, by decide, ?_, by decide, by decide⟩
  · simp +decide [find, findAux, check_point, Grid.get, gridSpike,
      Grid.rowsCount, Grid.colsCount]
  · simp +decide [find, findAux, check_point, Grid.get, gridKernel,
      Grid.rowsCount, Grid.colsCount]

/-- C3: plateau uniqueness fails in both directions.  The two-cell
plateau of `gridPlateau` lies in the middle row, which the converging
traversal of `find` never visits, so `find` reports zero maxima for it;
the diagonally connected plateau of `gridDiag` is fully visited and
`find` reports two maxima for it, (0,0) and (0,2). -/
theorem maximas_plateau_code_bug :
    find gridPlateau 1 = [] ∧ find gridDiag 1 = [(0, 0), (0, 2)] := by
  constructor
  · simp +decide [find, findAux, check_point, Grid.get, gridPlateau,
      Grid.rowsCount, Grid.colsCount]
  · simp +decide [find, findAux, check_point, Grid.get, gridDiag,
      Grid.rowsCount, Grid.colsCount]

end IptsdMaximas

namespace IptsdStabilizer

/-- Modelled from the spec: `Contact<T>` (contact.hpp is not among the
given sources).  Fields from §3 of the spec and their uses in
stabilizer.hpp: the optional tracking `index`, the `mean` position, the
`size` pair, the `orientation` with its normalization flag, and the
`stable` / `valid` flags.  `T` is the floating-point scalar of the C++
template, modelled as a linear ordered field. -/
structure Contact (T : Type) where
  index : Option Nat
  mean : T × T
  size : T × T
  orientation : T
  normalized : Bool
  stable : Bool
  valid : Bool
deriving DecidableEq

/-- Modelled from the spec and the uses in stabilizer.hpp: the stability
`Config<T>` (config.hpp is not among the given sources): the
temporal-check toggle, the temporal window, and optional (θ_lo, θ_hi)
threshold pairs for size, position and orientation, stored as 2-vectors
whose `x` is θ_lo and `y` is θ_hi. -/
structure Config (T : Type) where
  check_temporal_stability : Bool
  temporal_window : Nat
  size_threshold : Option (T × T)
  position_threshold : Option (T × T)
  orientation_threshold : Option (T × T)
deriving DecidableEq

/-- Modelled from the spec: `Contact<T>::find_in_frame` — the lookup of
the contact carrying a given index inside a frame, used by
`check_temporal` and `stabilize_contact`. -/
def Contact.find_in_frame {T : Type} (index : Nat) (frame : List (Contact T)) :
    Option (Contact T) :=
  frame.find? (fun c => decide (c.index = some index))

/-- Source `iptsd::contacts::stability::Stabilizer<T>`: the configuration and
the deque of the last frames (stabilizer.hpp lines 28-32). -/
structure Stabilizer (T : Type) where
  m_config : Config T
  m_frames : List (List (Contact T))
deriving DecidableEq

/-- Source `Stabilizer::Stabilizer(Config)` (stabilizer.hpp lines 35-37): the
deque is created holding `max(temporal_window, 2 - 1)` empty frames; the
configuration is stored as given, without any validation. -/
def Stabilizer.init {T : Type} (config : Config T) : Stabilizer T :=
  { m_config := config
    m_frames := List.replicate (max config.temporal_window 1) [] }

/-- Source `Stabilizer::reset()` (lines 42-46): clears every stored frame,
keeping the deque length. -/
def Stabilizer.reset {T : Type} (s : Stabilizer T) : Stabilizer T :=
  { s with m_frames := s.m_frames.map (fun _ => []) }

/-- Source `Stabilizer::check_temporal` (lines 117-134): a tracked contact is
temporally stable iff its index is found in every stored frame (the
source iterates the deque in reverse; `all` is order-insensitive). -/
def Stabilizer.check_temporal {T : Type} (s : Stabilizer T) (contact : Contact T) :
    Bool :=
  match contact.index with
  | none => true
  | some index => s.m_frames.all (fun f => (Contact.find_in_frame index f).isSome)

/-- Source `Stabilizer::stabilize_size` (lines 142-165): the dead-band /
break-band rule applied independently to the width and height deltas,
both deltas taken before any modification. -/
def stabilize_size {T : Type} [LinearOrderedField T] (cfg : Config T)
    (current last : Contact T) : Contact T :=
  match cfg.size_threshold with
  | none => current
  | some thresh =>
    let delta := (|current.size.1 - last.size.1|, |current.size.2 - last.size.2|)
    let c :=
      if delta.1 < thresh.1 then { current with size := (last.size.1, current.size.2) }
      else if delta.1 > thresh.2 then { current with stable := false }
      else current
    if delta.2 < thresh.1 then { c with size := (c.size.1, last.size.2) }
    else if delta.2 > thresh.2 then { c with stable := false }
    else c

/-- Source `Stabilizer::stabilize_position` (lines 173-193): the dead-band /
break-band rule applied to `std::hypot` of the mean delta.  `hypot`
abstracts the library function; the claims instantiate it with the
Euclidean norm on `ℝ`. -/
def stabilize_position {T : Type} [LinearOrderedField T] (hypot : T → T → T)
    (cfg : Config T) (current last : Contact T) : Contact T :=
  match cfg.position_threshold with
  | none => current
  | some thresh =>
    let delta := (current.mean.1 - last.mean.1, current.mean.2 - last.mean.2)
    let distance := hypot delta.1 delta.2
    if distance < thresh.1 then { current with mean := last.mean }
    else if distance > thresh.2 then { current with stable := false }
    else current

/-- Source `Stabilizer::stabilize_orientation` (lines 195-235): near-circular
contacts get orientation 0; otherwise the dead-band / break-band rule is
applied to the circular delta `min(d1, max - d1)` with `max` either 1
(normalized) or `pi` (`M_PI` in the source, modelled as `π` when the
claims instantiate `T := ℝ`). -/
def stabilize_orientation {T : Type} [LinearOrderedField T] (pi : T)
    (cfg : Config T) (current last : Contact T) : Contact T :=
  match cfg.orientation_threshold with
  | none => current
  | some thresh =>
    let aspect := max current.size.1 current.size.2 / min current.size.1 current.size.2
    if aspect < 11 / 10 then { current with orientation := 0 }
    else
      let mx := if current.normalized then 1 else pi
      let d1 := |current.orientation - last.orientation|
      let d2 := mx - d1
      let delta := min d1 d2
      if delta < thresh.1 then { current with orientation := last.orientation }
      else if delta > thresh.2 then { current with stable := false }
      else current

/-- Source `Stabilizer::stabilize_contact` (lines 77-107): temporal check (or
unconditional `stable := true`), early exit below window 2, lookup of
the prior contact in the given frame, then the three hysteresis stages
in source order. -/
def Stabilizer.stabilize_contact {T : Type} [LinearOrderedField T]
    (hypot : T → T → T) (pi : T) (s : Stabilizer T) (contact : Contact T)
    (frame : List (Contact T)) : Contact T :=
  match contact.index with
  | none => contact
  | some index =>
    let c :=
      if s.m_config.check_temporal_stability && decide (2 ≤ s.m_config.temporal_window)
      then { contact with stable := s.check_temporal contact }
      else { contact with stable := true }
    if s.m_config.temporal_window < 2 then c
    else
      match Contact.find_in_frame index frame with
      | none => c
      | some last =>
        let c := if s.m_config.size_threshold.isSome
          then stabilize_size s.m_config c last else c
        let c := if s.m_config.position_threshold.isSome
          then stabilize_position hypot s.m_config c last else c
        if s.m_config.orientation_threshold.isSome
          then stabilize_orientation pi s.m_config c last else c

/-- Source `Stabilizer::stabilize` (lines 53-68): every contact is stabilized
against the most recent stored frame (`m_frames.back()`); then the
oldest frame is popped and a copy of the stabilized frame is pushed.
Returns the new state and the stabilized frame (the source mutates the
argument in place). -/
def Stabilizer.stabilize {T : Type} [LinearOrderedField T] (hypot : T → T → T)
    (pi : T) (s : Stabilizer T) (frame : List (Contact T)) :
    Stabilizer T × List (Contact T) :=
  let back := s.m_frames.getLast?.getD []
  let stabilized := frame.map (fun c => s.stabilize_contact hypot pi c back)
  ({ s with m_frames := s.m_frames.tail ++ [stabilized] }, stabilized)

/-- The operations a client can perform on a constructed Stabilizer. -/
inductive StabOp (T : Type) where
  | stabilize (frame : List (Contact T))
  | reset

/-- Run a sequence of Stabilizer operations. -/
def runStab {T : Type} [LinearOrderedField T] (hypot : T → T → T) (pi : T) :
    Stabilizer T → List (StabOp T) → Stabilizer T
  | s, [] => s
  | s, .stabilize f :: ops => runStab hypot pi (s.stabilize hypot pi f).1 ops
  | s, .reset :: ops => runStab hypot pi s.reset ops

/-- Stand-in for `std::hypot` in rational test states whose
configuration has no position threshold, so the function is never
applied. -/
def zeroHypot : ℚ → ℚ → ℚ := fun _ _ => 0

/-- Stand-in for `M_PI` in rational test states whose configuration has
no orientation threshold, so the constant is never used. -/
def zeroPi : ℚ := 0

/-- Temporal checking enabled, temporal window 2, no hysteresis
thresholds. -/
def cfg1 : Config ℚ := ⟨true, 2, none, none, none⟩

/-- A tracked contact with index 0. -/
def c0 : Contact ℚ := ⟨some 0, (0, 0), (1, 1), 0, true, false, true⟩

/-- Temporal checking enabled with temporal window 0 — one of the
configurations the spec calls malformed. -/
def cfg0 : Config ℚ := ⟨true, 0, none, none, none⟩

/-- A size threshold pair with θ_hi = 1 < θ_lo = 5 — the other
configuration the spec calls malformed. -/
def badCfgSize : Config ℚ := ⟨false, 2, some (5, 1), none, none⟩

/-- A prior contact of index 0 with size (1, 1). -/
def cPrev : Contact ℚ := ⟨some 0, (0, 0), (1, 1), 0, true, true, true⟩

/-- A current contact of index 0 whose width grew by 3. -/
def cCur : Contact ℚ := ⟨some 0, (0, 0), (4, 1), 0, true, true, true⟩

/-- A Stabilizer state carrying the malformed size threshold, with the
prior contact present in both stored frames. -/
def sBad : Stabilizer ℚ := ⟨badCfgSize, [[cPrev], [cPrev]]⟩

/-- C1 counterexample: with temporal checking enabled and window 2, a
freshly constructed Stabilizer still holds two empty padding frames, so
after two successive identical frames carrying index 0 the contact's
`stable` flag is `false`, not `true` as claimed — the index is missing
from the older padding frame at the time of the second check. -/
theorem temporal_two_frames_counterexample :
    (((Stabilizer.init cfg1).stabilize zeroHypot zeroPi [c0]).1.stabilize
        zeroHypot zeroPi [c0]).2 = [{ c0 with stable := false }] := by
  decide

/-- C1 (amended): with temporal checking enabled and window 2, the
contact of index 0 becomes stable on the third successive identical
frame (the initial padding frames count as frames in which the index is
absent); and in general, with no hysteresis thresholds configured,
`stabilize` sets a tracked contact's `stable` flag to `true` iff its
index is present in every frame stored in the history at the time of the
call. -/
theorem temporal_stability_amended :
    ((((Stabilizer.init cfg1).stabilize zeroHypot zeroPi [c0]).1.stabilize
        zeroHypot zeroPi [c0]).1.stabilize zeroHypot zeroPi [c0]).2 =
      [{ c0 with stable := true }] ∧
    ∀ (T : Type) [_inst : LinearOrderedField T] (hypot : T → T → T) (pi : T)
      (s : Stabilizer T) (c : Contact T) (i : Nat) (frame : List (Contact T)),
      s.m_config.check_temporal_stability = true →
      2 ≤ s.m_config.temporal_window →
      s.m_config.size_threshold = none →
      s.m_config.position_threshold = none →
      s.m_config.orientation_threshold = none →
      c.index = some i →
      ((s.stabilize_contact hypot pi c frame).stable = true ↔
        ∀ f ∈ s.m_frames, (Contact.find_in_frame i f).isSome = true) := by
  refine ⟨by decide, ?_⟩
  intro T inst hypot pi s c i frame hct hw hs hp ho hi
  cases hfind : Contact.find_in_frame i frame with
  | none =>
    simp [Stabilizer.stabilize_contact, Stabilizer.check_temporal, hi, hct, hw,
      Nat.not_lt.mpr hw, hs, hp, ho, hfind, List.all_eq_true]
  | some last =>
    simp [Stabilizer.stabilize_contact, Stabilizer.check_temporal, hi, hct, hw,
      Nat.not_lt.mpr hw, hs, hp, ho, hfind, List.all_eq_true]

/-- Witness for the amended C1: a state whose two stored frames both
contain index 0; the stabilized contact comes out stable. -/
theorem temporal_stability_amended_witness :
    ((Stabilizer.mk cfg1 [[cPrev], [cPrev]]).stabilize_contact zeroHypot zeroPi
        c0 [cPrev]).stable = true :=
  (temporal_stability_amended.2 ℚ zeroHypot zeroPi
      (Stabilizer.mk cfg1 [[cPrev], [cPrev]]) c0 0 [cPrev]
      rfl (by decide) rfl rfl rfl rfl).mpr (by decide)

/-- C4 counterexample: constructed with temporal window 0, the history
deque holds one frame, not the configured zero — the constructor pads
with `max(N, 1)`. -/
theorem history_deque_counterexample :
    (Stabilizer.init cfg0).m_frames.length ≠ cfg0.temporal_window := by
  decide

/-- Auxiliary: operation sequences preserve the history length. -/
theorem runStab_length {T : Type} [LinearOrderedField T] (hypot : T → T → T)
    (pi : T) (ops : List (StabOp T)) :
    ∀ s : Stabilizer T, 1 ≤ s.m_frames.length →
      (runStab hypot pi s ops).m_frames.length = s.m_frames.length := by
  induction ops with
  | nil => intro s _; rfl
  | cons op ops ih =>
    intro s h
    cases op with
    | stabilize f =>
      have hlen : (s.stabilize hypot pi f).1.m_frames.length = s.m_frames.length := by
        simp [Stabilizer.stabilize]
        omega
      rw [runStab, ih _ (by omega), hlen]
    | reset =>
      have hlen : s.reset.m_frames.length = s.m_frames.length := by
        simp [Stabilizer.reset]
      rw [runStab, ih _ (by omega), hlen]

/-- C4 (amended): after any sequence of operations the history deque
holds exactly `max(N, 1)` frames (not `N`: a window of 0 is padded to
one frame); at construction all frames are empty, and each `stabilize`
pops the oldest frame and pushes a copy of the newly stabilized
frame. -/
theorem history_deque_invariant :
    ∀ (T : Type) [_inst : LinearOrderedField T] (hypot : T → T → T) (pi : T)
      (cfg : Config T) (ops : List (StabOp T)),
      (runStab hypot pi (Stabilizer.init cfg) ops).m_frames.length =
        max cfg.temporal_window 1 ∧
      (∀ f ∈ (Stabilizer.init cfg).m_frames, f = []) ∧
      (∀ (s : Stabilizer T) (frame : List (Contact T)), 1 ≤ s.m_frames.length →
        (s.stabilize hypot pi frame).1.m_frames =
          s.m_frames.tail ++ [(s.stabilize hypot pi frame).2]) := by
  intro T inst hypot pi cfg ops
  refine ⟨?_, ?_, ?_⟩
  · have h1 : (Stabilizer.init cfg).m_frames.length = max cfg.temporal_window 1 := by
      simp [Stabilizer.init]
    rw [runStab_length hypot pi ops _ (by omega), h1]
  · intro f hf
    simp [Stabilizer.init] at hf
    exact hf
  · intro s frame _
    simp [Stabilizer.stabilize]

/-- Witness for the amended C4: a concrete run of one stabilize and one
reset keeps two frames, and the stabilize step is pop-oldest /
push-newest. -/
theorem history_deque_invariant_witness :
    (runStab zeroHypot zeroPi (Stabilizer.init cfg1)
        [StabOp.stabilize [c0], StabOp.reset]).m_frames.length =
      max cfg1.temporal_window 1 ∧
    ((Stabilizer.init cfg1).stabilize zeroHypot zeroPi [c0]).1.m_frames =
      (Stabilizer.init cfg1).m_frames.tail ++
        [((Stabilizer.init cfg1).stabilize zeroHypot zeroPi [c0]).2] :=
  ⟨(history_deque_invariant ℚ zeroHypot zeroPi cfg1
      [StabOp.stabilize [c0], StabOp.reset]).1,
   (history_deque_invariant ℚ zeroHypot zeroPi cfg1 []).2.2
      (Stabilizer.init cfg1) [c0] (by decide)⟩

/-- C7 counterexample: both malformed configurations are accepted by the
constructor, not rejected.  With window 0 and temporal checking enabled
the Stabilizer is built and simply marks the tracked contact stable on
every frame; with θ_hi < θ_lo the pair is stored and applied per frame
(here the width delta 3 falls below θ_lo = 5, so the size snaps back). -/
theorem config_validation_counterexample :
    (Stabilizer.init cfg0).m_config = cfg0 ∧
    (Stabilizer.init cfg0).m_frames = [[]] ∧
    ((Stabilizer.init cfg0).stabilize zeroHypot zeroPi [c0]).2 =
      [{ c0 with stable := true }] ∧
    (Stabilizer.init badCfgSize).m_config = badCfgSize ∧
    (sBad.stabilize zeroHypot zeroPi [cCur]).2 = [{ cCur with size := (1, 1) }] := by
  refine ⟨by decide, by decide, by decide, by decide, ?_⟩
  norm_num [Stabilizer.stabilize, Stabilizer.stabilize_contact, Stabilizer.check_temporal,
    Contact.find_in_frame, stabilize_size, sBad, badCfgSize, cCur, cPrev]

/-- C7 (amended): the constructor validates nothing — every
configuration, malformed ones included, is accepted and stored as
given, with `max(N, 1)` empty history frames. -/
theorem stabilizer_accepts_any_config :
    ∀ (T : Type) [_inst : LinearOrderedField T] (cfg : Config T),
      (Stabilizer.init cfg).m_config = cfg ∧
      (Stabilizer.init cfg).m_frames =
        List.replicate (max cfg.temporal_window 1) [] := by
  intro T inst cfg
  exact ⟨rfl, rfl⟩

/-- Source `std::hypot` at the claims' instantiation `T := ℝ`: the Euclidean
norm of the delta vector. -/
noncomputable def realHypot (x y : ℝ) : ℝ := Real.sqrt (x ^ 2 + y ^ 2)

/-- The size stage never modifies the mean. -/
theorem stabilize_size_mean {T : Type} [LinearOrderedField T] (cfg : Config T)
    (c last : Contact T) : (stabilize_size cfg c last).mean = c.mean := by
  unfold stabilize_size
  cases cfg.size_threshold with
  | none => rfl
  | some th =>
    dsimp only
    split_ifs <;> rfl

/-- The orientation stage never modifies the mean. -/
theorem stabilize_orientation_mean {T : Type} [LinearOrderedField T] (pi : T)
    (cfg : Config T) (c last : Contact T) :
    (stabilize_orientation pi cfg c last).mean = c.mean := by
  unfold stabilize_orientation
  cases cfg.orientation_threshold with
  | none => rfl
  | some th =>
    dsimp only
    split_ifs <;> rfl

/-- The orientation stage never resets a false `stable` flag. -/
theorem stabilize_orientation_stable_false {T : Type} [LinearOrderedField T]
    (pi : T) (cfg : Config T) (c last : Contact T) (h : c.stable = false) :
    (stabilize_orientation pi cfg c last).stable = false := by
  unfold stabilize_orientation
  cases cfg.orientation_threshold with
  | none => exact h
  | some th =>
    dsimp only
    split_ifs <;> simp [h]

/-- The behaviour of the position stage followed by the orientation
stage, for a contact whose mean is `cm` and whose distance to the prior
mean is `d`. -/
theorem pos_orient_stages (cfg : Config ℝ) (pi : ℝ) (c2 last : Contact ℝ)
    (lo hi d : ℝ) (cm : ℝ × ℝ)
    (hth : cfg.position_threshold = some (lo, hi)) (hpair : lo ≤ hi)
    (hcm : c2.mean = cm)
    (hd : d = realHypot (cm.1 - last.mean.1) (cm.2 - last.mean.2)) :
    (d < lo →
      (if cfg.orientation_threshold.isSome
        then stabilize_orientation pi cfg (stabilize_position realHypot cfg c2 last) last
        else stabilize_position realHypot cfg c2 last).mean = last.mean) ∧
    (d > hi →
      (if cfg.orientation_threshold.isSome
        then stabilize_orientation pi cfg (stabilize_position realHypot cfg c2 last) last
        else stabilize_position realHypot cfg c2 last).stable = false ∧
      (if cfg.orientation_threshold.isSome
        then stabilize_orientation pi cfg (stabilize_position realHypot cfg c2 last) last
        else stabilize_position realHypot cfg c2 last).mean = cm) ∧
    (¬ d < lo → ¬ d > hi →
      (if cfg.orientation_threshold.isSome
        then stabilize_orientation pi cfg (stabilize_position realHypot cfg c2 last) last
        else stabilize_position realHypot cfg c2 last).mean = cm) := by
  subst hd
  have hstep : stabilize_position realHypot cfg c2 last =
      (if realHypot (cm.1 - last.mean.1) (cm.2 - last.mean.2) < lo
        then { c2 with mean := last.mean }
       else if realHypot (cm.1 - last.mean.1) (cm.2 - last.mean.2) > hi
        then { c2 with stable := false }
       else c2) := by
    unfold stabilize_position
    rw [hth]
    dsimp only
    rw [hcm]
  rw [hstep]
  refine ⟨?_, ?_, ?_⟩
  · intro hlt
    rw [if_pos hlt]
    split_ifs with ho
    · rw [stabilize_orientation_mean]
    · rfl
  · intro hgt
    have hnlt : ¬ realHypot (cm.1 - last.mean.1) (cm.2 - last.mean.2) < lo := by
      intro hcon
      exact absurd (lt_trans hgt (lt_of_lt_of_le hcon hpair)) (lt_irrefl _)
    rw [if_neg hnlt, if_pos hgt]
    constructor
    · split_ifs with ho
      · exact stabilize_orientation_stable_false pi cfg _ last rfl
      · rfl
    · split_ifs with ho
      · rw [stabilize_orientation_mean]; exact hcm
      · exact hcm
  · intro hnlt hngt
    rw [if_neg hnlt, if_neg hngt]
    split_ifs with ho
    · rw [stabilize_orientation_mean]; exact hcm
    · exact hcm

/-- C5: for a tracked contact with a prior contact of the same index in
the most recent history frame, temporal window ≥ 2 and a configured,
well-ordered position threshold pair (θ_lo ≤ θ_hi), with d the
Euclidean distance between the current and previous means: d < θ_lo
snaps the post-stabilization mean back to the previous mean exactly;
d > θ_hi marks the contact unstable and leaves the mean unchanged;
otherwise the current mean is kept. -/
theorem position_hysteresis (pi : ℝ) (s : Stabilizer ℝ) (c : Contact ℝ) (i : Nat)
    (last : Contact ℝ) (lo hi : ℝ)
    (hidx : c.index = some i)
    (hw : 2 ≤ s.m_config.temporal_window)
    (hfind : Contact.find_in_frame i (s.m_frames.getLast?.getD []) = some last)
    (hth : s.m_config.position_threshold = some (lo, hi))
    (hpair : lo ≤ hi) :
    (Real.sqrt ((c.mean.1 - last.mean.1) ^ 2 + (c.mean.2 - last.mean.2) ^ 2) < lo →
      (s.stabilize_contact realHypot pi c (s.m_frames.getLast?.getD [])).mean = last.mean) ∧
    (Real.sqrt ((c.mean.1 - last.mean.1) ^ 2 + (c.mean.2 - last.mean.2) ^ 2) > hi →
      (s.stabilize_contact realHypot pi c (s.m_frames.getLast?.getD [])).stable = false ∧
      (s.stabilize_contact realHypot pi c (s.m_frames.getLast?.getD [])).mean = c.mean) ∧
    (¬ Real.sqrt ((c.mean.1 - last.mean.1) ^ 2 + (c.mean.2 - last.mean.2) ^ 2) < lo →
     ¬ Real.sqrt ((c.mean.1 - last.mean.1) ^ 2 + (c.mean.2 - last.mean.2) ^ 2) > hi →
      (s.stabilize_contact realHypot pi c (s.m_frames.getLast?.getD [])).mean = c.mean) := by
  obtain ⟨cidx, cmean, csize, corient, cnorm, cstable, cvalid⟩ := c
  dsimp only at hidx ⊢
  subst hidx
  unfold Stabilizer.stabilize_contact
  dsimp only
  rw [if_neg (Nat.not_lt.mpr hw), hfind]
  have hpos : s.m_config.position_threshold.isSome = true := by rw [hth]; rfl
  simp only [hpos, if_true]
  exact pos_orient_stages s.m_config pi _ last lo hi _ cmean hth hpair
    (by split_ifs <;> simp [stabilize_size_mean]) rfl

/-- Position threshold pair (θ_lo, θ_hi) = (1, 2). -/
def cfgPos : Config ℝ := ⟨false, 2, none, some (1, 2), none⟩

/-- A prior contact of index 0 at the origin. -/
def lastR : Contact ℝ := ⟨some 0, (0, 0), (1, 1), 0, true, true, true⟩

/-- A current contact of index 0 at mean (3, 4) — distance 5 from the
prior contact. -/
def curR : Contact ℝ := ⟨some 0, (3, 4), (1, 1), 0, true, true, true⟩

/-- A Stabilizer whose two stored frames both hold the prior contact. -/
def sPos : Stabilizer ℝ := ⟨cfgPos, [[lastR], [lastR]]⟩

/-- Witness for C5: a contact jumping by distance 5 > θ_hi = 2 is
marked unstable and its mean is kept. -/
theorem position_hysteresis_witness :
    (sPos.stabilize_contact realHypot 0 curR (sPos.m_frames.getLast?.getD [])).stable = false ∧
    (sPos.stabilize_contact realHypot 0 curR (sPos.m_frames.getLast?.getD [])).mean = curR.mean := by
  have h := (position_hysteresis 0 sPos curR 0 lastR 1 2 rfl
    (by norm_num [sPos, cfgPos]) rfl rfl (by norm_num)).2.1
  apply h
  show Real.sqrt ((curR.mean.1 - lastR.mean.1) ^ 2 + (curR.mean.2 - lastR.mean.2) ^ 2) > 2
  have h25 : ((curR.mean.1 - lastR.mean.1) ^ 2 + (curR.mean.2 - lastR.mean.2) ^ 2 : ℝ) = 25 := by
    norm_num [curR, lastR]
  rw [h25, show (25 : ℝ) = 5 ^ 2 by norm_num, Real.sqrt_sq (by norm_num : (0 : ℝ) ≤ 5)]
  norm_num

/-- C6: with a configured orientation threshold pair, a contact whose
aspect ratio (major / minor axis) is below 1.1 gets orientation 0
unconditionally; otherwise the dead-band / break-band rule is applied to
the circular delta min(|a − b|, max − |a − b|), with max = 1 for
normalized orientations and max = π for radians. -/
theorem orientation_stabilization (cfg : Config ℝ) (current last : Contact ℝ)
    (lo hi : ℝ) (hth : cfg.orientation_threshold = some (lo, hi)) :
    (max current.size.1 current.size.2 / min current.size.1 current.size.2 < 11 / 10 →
      stabilize_orientation Real.pi cfg current last = { current with orientation := 0 }) ∧
    (¬ max current.size.1 current.size.2 / min current.size.1 current.size.2 < 11 / 10 →
      (min |current.orientation - last.orientation|
          ((if current.normalized then (1 : ℝ) else Real.pi) -
            |current.orientation - last.orientation|) < lo →
        stabilize_orientation Real.pi cfg current last =
          { current with orientation := last.orientation }) ∧
      (¬ min |current.orientation - last.orientation|
          ((if current.normalized then (1 : ℝ) else Real.pi) -
            |current.orientation - last.orientation|) < lo →
        min |current.orientation - last.orientation|
          ((if current.normalized then (1 : ℝ) else Real.pi) -
            |current.orientation - last.orientation|) > hi →
        stabilize_orientation Real.pi cfg current last = { current with stable := false }) ∧
      (¬ min |current.orientation - last.orientation|
          ((if current.normalized then (1 : ℝ) else Real.pi) -
            |current.orientation - last.orientation|) < lo →
       ¬ min |current.orientation - last.orientation|
          ((if current.normalized then (1 : ℝ) else Real.pi) -
            |current.orientation - last.orientation|) > hi →
        stabilize_orientation Real.pi cfg current last = current)) := by
  unfold stabilize_orientation
  rw [hth]
  dsimp only
  refine ⟨fun ha => ?_, fun hna => ⟨fun hlt => ?_, fun hnlt hgt => ?_, fun hnlt hngt => ?_⟩⟩
  · rw [if_pos ha]
  · rw [if_neg hna, if_pos hlt]
  · rw [if_neg hna, if_neg hnlt, if_pos hgt]
  · rw [if_neg hna, if_neg hnlt, if_neg hngt]

/-- Orientation threshold pair (θ_lo, θ_hi) = (1/4, 1/2). -/
noncomputable def cfgOr : Config ℝ := ⟨false, 2, none, none, some (1/4, 1/2)⟩

/-- A prior contact with normalized orientation 9/10. -/
noncomputable def lastO : Contact ℝ := ⟨some 0, (0, 0), (3, 1), 9/10, true, true, true⟩

/-- A current contact with orientation 0 and aspect ratio 3. -/
noncomputable def curO : Contact ℝ := ⟨some 0, (0, 0), (3, 1), 0, true, true, true⟩

/-- Witness for C6: orientations 0 and 9/10 are circularly only 1/10
apart, below θ_lo = 1/4, so the orientation snaps back to the prior
value. -/
theorem orientation_stabilization_witness :
    stabilize_orientation Real.pi cfgOr curO lastO =
      { curO with orientation := lastO.orientation } := by
  have h := (orientation_stabilization cfgOr curO lastO (1/4) (1/2) rfl).2
  refine (h ?_).1 ?_
  · show ¬ max (3 : ℝ) 1 / min (3 : ℝ) 1 < 11 / 10
    rw [max_eq_left (by norm_num : (1 : ℝ) ≤ 3), min_eq_right (by norm_num : (1 : ℝ) ≤ 3)]
    norm_num
  · show min |(0 : ℝ) - 9/10| ((if true then (1 : ℝ) else Real.pi) - |(0 : ℝ) - 9/10|) < 1/4
    rw [show (0 : ℝ) - 9/10 = -(9/10) by ring, abs_neg,
      abs_of_nonneg (by norm_num : (0 : ℝ) ≤ 9/10), if_pos rfl]
    rw [min_eq_right (by norm_num : (1 : ℝ) - 9/10 ≤ 9/10)]
    norm_num

end IptsdStabilizer

namespace IptsdStylus

/-! Linux input event type and code constants used by the Go emitter
(`linux/input-event-codes.h`). -/

def EV_SYN : Nat := 0

def EV_KEY : Nat := 1

def EV_ABS : Nat := 3

def SYN_REPORT : Nat := 0

def BTN_TOUCH : Nat := 0x14a

def BTN_TOOL_PEN : Nat := 0x140

def BTN_TOOL_RUBBER : Nat := 0x141

def BTN_STYLUS : Nat := 0x14b

def ABS_X : Nat := 0x00

def ABS_Y : Nat := 0x01

def ABS_PRESSURE : Nat := 0x18

def ABS_MISC : Nat := 0x28

def ABS_TILT_X : Nat := 0x1a

def ABS_TILT_Y : Nat := 0x1b

/-- Source `IptsStylusReportData` (stylus.go): the v2 wire record; all fields
are `uint16`, modelled as `Nat` (always < 2^16 on the wire). -/
structure IptsStylusReportData where
  timestamp : Nat
  mode : Nat
  x : Nat
  y : Nat
  pressure : Nat
  altitude : Nat
  azimuth : Nat
deriving DecidableEq, Repr

/-- Source `IptsStylusReportDataNoTilt` (stylus.go): the v1 wire record
(reserved bytes elided; `mode` is a `uint8`, the rest `uint16`). -/
structure IptsStylusReportDataNoTilt where
  mode : Nat
  x : Nat
  y : Nat
  pressure : Nat
deriving DecidableEq, Repr

/-- One `Emit(type, code, value)` call to the Event Sink. -/
structure Event where
  etype : Nat
  code : Nat
  value : Int
deriving DecidableEq, Repr

/-- Source `IptsStylusHandleData` (stylus.go lines 47-87): extracts the mode
bits, derives the tool-button states, computes the tilt pair only when
`altitude > 0`, and emits the event sequence in source order.  The
floating-point `atan2` tilt conversion is abstracted as the `tilt`
parameter; the v1 claims never exercise it because the v1 path forces
altitude 0. -/
def IptsStylusHandleData (tilt : Nat → Nat → Int × Int)
    (data : IptsStylusReportData) : List Event :=
  let prox := data.mode &&& 1
  let touch := (data.mode &&& 2) >>> 1
  let button := (data.mode &&& 4) >>> 2
  let rubber := (data.mode &&& 8) >>> 3
  let btn_pen := prox * (1 - rubber)
  let btn_rubber := prox * rubber
  let t := if data.altitude > 0 then tilt data.altitude data.azimuth else (0, 0)
  [⟨EV_KEY, BTN_TOUCH, (touch : Int)⟩,
   ⟨EV_KEY, BTN_TOOL_PEN, (btn_pen : Int)⟩,
   ⟨EV_KEY, BTN_TOOL_RUBBER, (btn_rubber : Int)⟩,
   ⟨EV_KEY, BTN_STYLUS, (button : Int)⟩,
   ⟨EV_ABS, ABS_X, (data.x : Int)⟩,
   ⟨EV_ABS, ABS_Y, (data.y : Int)⟩,
   ⟨EV_ABS, ABS_PRESSURE, (data.pressure : Int)⟩,
   ⟨EV_ABS, ABS_MISC, (data.timestamp : Int)⟩,
   ⟨EV_ABS, ABS_TILT_X, t.1⟩,
   ⟨EV_ABS, ABS_TILT_Y, t.2⟩,
   ⟨EV_SYN, SYN_REPORT, 0⟩]

/-- The loop body of `IptsStylusHandleReportNoTilt` (stylus.go lines
117-136): one decoded v1 record is widened to the v2 layout with the
pressure multiplied by 4 in 16-bit unsigned arithmetic and altitude,
azimuth and timestamp forced to 0, then dispatched. -/
def IptsStylusHandleReportNoTiltElem (tilt : Nat → Nat → Int × Int)
    (data : IptsStylusReportDataNoTilt) : List Event :=
  IptsStylusHandleData tilt
    { timestamp := 0
      mode := data.mode
      x := data.x
      y := data.y
      pressure := data.pressure * 4 % 65536
      altitude := 0
      azimuth := 0 }

/-- C9: every decoded v1 (no-tilt) stylus record is emitted with
pressure equal to the wire pressure multiplied by 4 as a 16-bit
unsigned product, and with both tilt axes forced to 0; in particular a
v1 record with pressure 250 is emitted with pressure 1000. -/
theorem stylus_v1_pressure_scaling :
    (∀ (tilt : Nat → Nat → Int × Int) (d : IptsStylusReportDataNoTilt),
      ((IptsStylusHandleReportNoTiltElem tilt d).filter
          (fun e => decide (e.etype = EV_ABS ∧ e.code = ABS_PRESSURE))).map Event.value =
        [((d.pressure * 4 % 65536 : Nat) : Int)] ∧
      ((IptsStylusHandleReportNoTiltElem tilt d).filter
          (fun e => decide (e.etype = EV_ABS ∧
            (e.code = ABS_TILT_X ∨ e.code = ABS_TILT_Y)))).map Event.value = [0, 0]) ∧
    ((IptsStylusHandleReportNoTiltElem (fun _ _ => (0, 0)) ⟨0, 0, 0, 250⟩).filter
        (fun e => decide (e.etype = EV_ABS ∧ e.code = ABS_PRESSURE))).map Event.value =
      [1000] := by
  constructor
  · intro tilt d
    constructor <;>
      simp [IptsStylusHandleReportNoTiltElem, IptsStylusHandleData, List.filter,
        EV_SYN, EV_KEY, EV_ABS, SYN_REPORT, BTN_TOUCH, BTN_TOOL_PEN, BTN_TOOL_RUBBER,
        BTN_STYLUS, ABS_X, ABS_Y, ABS_PRESSURE, ABS_MISC, ABS_TILT_X, ABS_TILT_Y]
  · decide

end IptsdStylus
